import Mathlib

/-!
Verification of the `custom-commit-templater` example
(`src/cli/examples/custom-commit-templater/main.rs`).

The example registers three commit-template methods with the host template
language: `num_digits_in_id`, `has_most_digits` and `num_char_in_id`, plus a
session-scoped memoized repository-wide maximum (`MostDigitsInId`, backed by a
`OnceCell<i64>`).

The data model is embedded shallowly:
* `CommitId` is its byte sequence; `CommitId.hex` is the canonical lowercase
  hexadecimal encoding (two hex digits per byte), matching `id.hex()`.
* `i64` counters are embedded as `Int` (the counts involved are bounded by the
  length of the id's encoding, far below any overflow).
* Fallible Rust code returning `Result<T, E>` is embedded as `Except E T`.
* The `OnceCell<i64>` is embedded as `Option Int` state threaded explicitly.
* External collaborators (the revset enumeration of the repository) are
  embedded as an input: the list of all commit ids in the repository.
-/

namespace CustomCommitTemplater

/-- A commit id: an immutable opaque sequence of bytes (each `< 256`;
we keep `Nat` and reduce mod 256 in the encoding). -/
structure CommitId where
  bytes : List Nat
deriving DecidableEq

/-- Hex digit character for a value `< 16`, lowercase (as produced by
`ObjectId::hex`). -/
def hexDigitChar (n : Nat) : Char :=
  if n < 10 then Char.ofNat (48 + n) else Char.ofNat (87 + n)

/-- One byte rendered as two lowercase hex characters. -/
def byteToHexChars (b : Nat) : List Char :=
  [hexDigitChar (b % 256 / 16), hexDigitChar (b % 16)]

/-- `CommitId::hex`: the canonical hexadecimal encoding of the id's bytes. -/
def CommitId.hex (id : CommitId) : List Char :=
  (id.bytes.map byteToHexChars).flatten

/-- A commit; the example only ever reads its id (`commit.id()`). -/
structure Commit where
  id : CommitId
deriving DecidableEq

/-- Rust's `char::is_ascii_digit`: true exactly on `'0'..='9'`. -/
def isAsciiDigit (c : Char) : Bool :=
  48 ≤ c.toNat && c.toNat ≤ 57

/-- `jj_cli::templater::TemplatePropertyError` — opaque evaluation error
(the example never constructs one). -/
inductive TemplatePropertyError where
  | mk (message : String)
deriving DecidableEq

/-- `fn num_digits_in_id(id: &CommitId) -> i64`: loop over `id.hex().chars()`
incrementing `count` on each `is_ascii_digit` character. -/
def num_digits_in_id (id : CommitId) : Int :=
  id.hex.foldl (fun count ch => if isAsciiDigit ch then count + 1 else count) 0

/-- `fn num_char_in_id(commit: Commit, ch_match: char) -> Result<i64, TemplatePropertyError>`:
loop over `commit.id().hex().chars()` incrementing `count` on each character
equal to `ch_match`; always returns `Ok(count)`. -/
def num_char_in_id (commit : Commit) (ch_match : Char) :
    Except TemplatePropertyError Int :=
  Except.ok
    (commit.id.hex.foldl (fun count ch => if ch == ch_match then count + 1 else count) 0)

/-! ### Generic fold/count lemmas -/

theorem foldl_count_eq_filter_length (p : Char → Bool) (l : List Char) (acc : Int) :
    l.foldl (fun count ch => if p ch then count + 1 else count) acc
      = acc + (l.filter p).length := by
  induction l generalizing acc with
  | nil => simp
  | cons c cs ih =>
    by_cases h : p c
    · simp [List.foldl_cons, List.filter_cons, h, ih]
      ring
    · simp [List.foldl_cons, List.filter_cons, h, ih]

/-! ### The memoized repository-wide maximum (`MostDigitsInId`) -/

/-- `struct MostDigitsInId { count: OnceCell<i64> }`.  The `OnceCell<i64>` is
embedded as `Option Int` (`none` = empty cell).  The field is named `countCell`
here because Lean cannot give the field and the method the same name. -/
structure MostDigitsInId where
  countCell : Option Int
deriving DecidableEq

/-- `MostDigitsInId::new()`: an empty cell. -/
def MostDigitsInId.new : MostDigitsInId :=
  ⟨Option.none⟩

/-- The compute closure passed to `get_or_init`:
`RevsetExpression::all().evaluate_programmatic(repo).unwrap().iter().map(|id| num_digits_in_id(&id)).max().unwrap_or(0)`.
The successful enumeration of the full object universe is the list `repoIds`. -/
def MostDigitsInId.compute (repoIds : List CommitId) : Int :=
  ((repoIds.map (fun id => num_digits_in_id id)).max?).getD 0

/-- `MostDigitsInId::count(&self, repo)` = `*self.count.get_or_init(compute)`:
returns the cached value when the cell is filled, otherwise runs the compute
closure, fills the cell and returns the value.  The cell state is threaded
explicitly (in Rust it is interior mutability on `&self`). -/
def MostDigitsInId.count (self : MostDigitsInId) (repoIds : List CommitId) :
    Int × MostDigitsInId :=
  match self.countCell with
  | Option.some v => (v, self)
  | Option.none =>
      (MostDigitsInId.compute repoIds, ⟨Option.some (MostDigitsInId.compute repoIds)⟩)

/-- A failure of the external enumeration collaborator
(`RevsetExpression::evaluate_programmatic` returning `Err`). -/
inductive EvalFailure where
  | revsetError (message : String)
deriving DecidableEq

/-- `MostDigitsInId::count` with a possibly-failing enumeration collaborator.
When the cell is empty and the enumeration fails, the `.unwrap()` inside the
`get_or_init` closure raises; the raise propagates out of `get_or_init` to the
caller (embedded as `Except.error`) and the `OnceCell` is left uninitialized
(`once_cell::sync::OnceCell::get_or_init` does not fill the cell when the
closure raises).  On any other path this agrees with `MostDigitsInId.count`. -/
def MostDigitsInId.countWithEnum (self : MostDigitsInId)
    (enum : Except EvalFailure (List CommitId)) :
    Except EvalFailure Int × MostDigitsInId :=
  match self.countCell with
  | Option.some v => (Except.ok v, self)
  | Option.none =>
      match enum with
      | Except.error e => (Except.error e, self)
      | Except.ok ids =>
          (Except.ok (MostDigitsInId.compute ids), ⟨Option.some (MostDigitsInId.compute ids)⟩)

/-- Trace of `n` successive calls to `MostDigitsInId::count` against the same
repository, starting from cell state `s`: returns the list of returned values,
the final cell state, and how many times the compute closure ran (it runs
exactly when the cell is empty at the call). -/
def runCountCalls (repoIds : List CommitId) :
    Nat → MostDigitsInId → List Int × MostDigitsInId × Nat
  | 0, s => ([], s, 0)
  | Nat.succ n, s =>
      let r := MostDigitsInId.count s repoIds
      let runs := if s.countCell.isNone then 1 else 0
      let rest := runCountCalls repoIds n r.2
      (r.1 :: rest.1, rest.2.1, runs + rest.2.2)

/-! ### Template-parser argument validators and the extension wiring

The bodies of `jj_cli::template_parser` (`expect_no_arguments`,
`expect_exact_arguments`, `expect_string_literal_with`,
`TemplateParseError::unexpected_expression`), of
`jj_lib::extensions_map::ExtensionsMap` and of the `LanguageContext` services
(`cache_extension`, `repo`, `wrap_integer`, `wrap_boolean`) are code of this
repository that is not under `src/`; they are modelled from the spec below. -/

/-- Modelled from the spec: a source span attached to diagnostics
("Always carries a source span"). -/
structure Span where
  lo : Nat
  hi : Nat
deriving DecidableEq

/-- Modelled from the spec: an argument expression at a call site is either a
literal string expression or some other (computed) expression
("fails unless the argument is a literal string expression (not a computed
property)"). -/
inductive ExpressionKind where
  | stringLiteral (s : String)
  | other
deriving DecidableEq

/-- Modelled from the spec: an argument expression node with its source span. -/
structure ExpressionNode where
  kind : ExpressionKind
  span : Span
deriving DecidableEq

/-- Modelled from the spec: a `CallSite` is "method name, ordered list of
argument expressions, and a source span for diagnostics". -/
structure CallSite where
  name : String
  args : List ExpressionNode
  span : Span
deriving DecidableEq

/-- Modelled from the spec: `jj_cli::template_parser::TemplateParseError` —
a build/parse error; "argument count mismatch or wrong literal kind → parse
error identifying the offending argument's span". -/
inductive TemplateParseError where
  | invalidArguments (message : String) (span : Span)
  | unexpectedExpression (message : String) (span : Span)
deriving DecidableEq

/-- Modelled from the spec: `template_parser::expect_no_arguments` —
"*no-arguments*: fails unless the call's argument list is empty". -/
def expect_no_arguments (call : CallSite) : Except TemplateParseError Unit :=
  match call.args with
  | [] => Except.ok ()
  | _ => Except.error (TemplateParseError.invalidArguments "Expected 0 arguments" call.span)

/-- Modelled from the spec: `template_parser::expect_exact_arguments` at arity
one — "*exact-arity(N)*: fails unless exactly N arguments are present; returns
them as a fixed-size tuple/array for destructuring". -/
def expect_exact_arguments_1 (call : CallSite) :
    Except TemplateParseError ExpressionNode :=
  match call.args with
  | [a] => Except.ok a
  | _ => Except.error (TemplateParseError.invalidArguments "Expected 1 arguments" call.span)

/-- Modelled from the spec: `template_parser::expect_string_literal_with` —
"*string-literal-with(predicate)*: fails unless the argument is a literal
string expression (not a computed property), then applies a caller-supplied
refinement ... that may itself fail with a span-carrying diagnostic". -/
def expect_string_literal_with {α : Type}
    (node : ExpressionNode)
    (f : String → Span → Except TemplateParseError α) :
    Except TemplateParseError α :=
  match node.kind with
  | ExpressionKind.stringLiteral s => f s node.span
  | ExpressionKind.other =>
      Except.error (TemplateParseError.unexpectedExpression "Expected string literal" node.span)

/-- Modelled from the spec: `jj_lib::extensions_map::ExtensionsMap` — a
"type-keyed store of singleton extension state"; specialised to the single
extension-state type this example uses (`MostDigitsInId`). -/
structure ExtensionsMap where
  mostDigitsInId : Option MostDigitsInId
deriving DecidableEq

/-- `HexCounter::build_cache_extensions`: `extensions.insert(MostDigitsInId::new())`. -/
def build_cache_extensions (extensions : ExtensionsMap) : ExtensionsMap :=
  { extensions with mostDigitsInId := Option.some MostDigitsInId.new }

/-- Modelled from the spec: the `LanguageContext` passed to every builder — it
"exposes the object universe (repo), the Extensions Map, and typed
result-wrapping operations".  `repoIds` is the full enumerable universe behind
`language.repo()`. -/
structure LanguageContext where
  repoIds : List CommitId
  extensions : ExtensionsMap

/-- Modelled from the spec: `cache_extension::<MostDigitsInId>() -> Option<&T>`
— "typed lookup into the Extensions Map". -/
def LanguageContext.cache_extension (language : LanguageContext) :
    Option MostDigitsInId :=
  language.extensions.mostDigitsInId

/-- The type-erased property produced by a builder (`wrap_boolean` /
`wrap_integer` applied to a `TemplateFunction` over the commit). -/
inductive WrappedProperty where
  | boolean (f : Commit → Except TemplatePropertyError Bool)
  | integer (f : Commit → Except TemplatePropertyError Int)

/-- Outcome of running a builder: a wrapped property, a parse error
(the `?` on a validator), or the raise of the `.unwrap()` on a missing
cache extension (a host wiring bug). -/
inductive BuildResult where
  | ok (w : WrappedProperty)
  | parseError (e : TemplateParseError)
  | missingExtension

/-- Extract and run a boolean property from a build result. -/
def BuildResult.evalBool : BuildResult → Commit → Option (Except TemplatePropertyError Bool)
  | BuildResult.ok (WrappedProperty.boolean f), c => Option.some (f c)
  | _, _ => Option.none

/-- Extract and run an integer property from a build result. -/
def BuildResult.evalInt : BuildResult → Commit → Option (Except TemplatePropertyError Int)
  | BuildResult.ok (WrappedProperty.integer f), c => Option.some (f c)
  | _, _ => Option.none

/-! ### The three builders registered by `HexCounter::build_fn_table` -/

/-- The `"has_most_digits"` builder: `expect_no_arguments(call)?`, then
`language.cache_extension::<MostDigitsInId>().unwrap().count(language.repo())`
is captured at build time, and the returned boolean property compares
`num_digits_in_id(commit.id()) == most_digits`. -/
def hasMostDigitsBuild (language : LanguageContext) (call : CallSite) : BuildResult :=
  match expect_no_arguments call with
  | Except.error e => BuildResult.parseError e
  | Except.ok _ =>
      match language.cache_extension with
      | Option.none => BuildResult.missingExtension
      | Option.some cell =>
          let most_digits := (cell.count language.repoIds).1
          BuildResult.ok (WrappedProperty.boolean (fun commit =>
            Except.ok (num_digits_in_id commit.id == most_digits)))

/-- The `"num_digits_in_id"` builder: `expect_no_arguments(call)?`, then an
integer property computing `num_digits_in_id(commit.id())`. -/
def numDigitsInIdBuild (_language : LanguageContext) (call : CallSite) : BuildResult :=
  match expect_no_arguments call with
  | Except.error e => BuildResult.parseError e
  | Except.ok _ =>
      BuildResult.ok (WrappedProperty.integer (fun commit =>
        Except.ok (num_digits_in_id commit.id)))

/-- The `"num_char_in_id"` builder: `expect_exact_arguments(call)?` destructured
to one argument, then `expect_string_literal_with` with the refinement that the
literal is a single character (otherwise
`TemplateParseError::unexpected_expression("Expected singular character argument", span)`),
then an integer property evaluating `num_char_in_id(commit, char_arg)`. -/
def numCharInIdBuild (_language : LanguageContext) (call : CallSite) : BuildResult :=
  match expect_exact_arguments_1 call with
  | Except.error e => BuildResult.parseError e
  | Except.ok string_arg =>
      match expect_string_literal_with string_arg (fun string span =>
          match string.toList with
          | [ch] => Except.ok ch
          | _ => Except.error (TemplateParseError.unexpectedExpression
                  "Expected singular character argument" span)) with
      | Except.error e => BuildResult.parseError e
      | Except.ok char_arg =>
          BuildResult.ok (WrappedProperty.integer (fun commit =>
            num_char_in_id commit char_arg))

/-! ### Concrete scenario data (spec §8) -/

/-- The id whose hex encoding is `"a1b2c3"`. -/
def scenarioIdA : CommitId := ⟨[0xa1, 0xb2, 0xc3]⟩

/-- The id whose hex encoding is `"000111"`. -/
def scenarioIdB : CommitId := ⟨[0x00, 0x01, 0x11]⟩

/-- The id whose hex encoding is `"abcdef"`. -/
def scenarioIdC : CommitId := ⟨[0xab, 0xcd, 0xef]⟩

/-- The scenario universe `U`. -/
def scenarioUniverse : List CommitId := [scenarioIdA, scenarioIdB, scenarioIdC]

/-- A language context over the scenario universe with the cache extensions
seeded by `build_cache_extensions` from an empty map. -/
def scenarioLanguage : LanguageContext :=
  ⟨scenarioUniverse, build_cache_extensions ⟨Option.none⟩⟩

/-- A call site with an empty argument list. -/
def emptyCall : CallSite := ⟨"has_most_digits", [], ⟨0, 0⟩⟩

/-! ### Helper lemmas -/

theorem isAsciiDigit_eq_isDigit (c : Char) : isAsciiDigit c = c.isDigit := by
  simp [isAsciiDigit, Char.isDigit, Char.toNat, UInt32.le_def, BitVec.le_def, UInt32.toNat]

theorem intList_max?_spec (l : List Int) (m : Int) (h : l.max? = Option.some m) :
    m ∈ l ∧ ∀ x ∈ l, x ≤ m := by
  refine ⟨List.max?_mem (fun a b => max_choice a b) h, fun x hx => ?_⟩
  exact ((List.max?_le_iff (fun a b c => max_le_iff) h).1 le_rfl) x hx

theorem compute_is_max (U : List CommitId) :
    (∀ id ∈ U, num_digits_in_id id ≤ MostDigitsInId.compute U)
    ∧ (U ≠ [] → ∃ id ∈ U, num_digits_in_id id = MostDigitsInId.compute U)
    ∧ (U = [] → MostDigitsInId.compute U = 0) := by
  unfold MostDigitsInId.compute
  cases hm : (U.map (fun id => num_digits_in_id id)).max? with
  | none =>
    rw [List.max?_eq_none_iff, List.map_eq_nil_iff] at hm
    subst hm
    simp
  | some m =>
    obtain ⟨hmem, hle⟩ := intList_max?_spec _ m hm
    rw [List.mem_map] at hmem
    obtain ⟨id0, hid0, hval⟩ := hmem
    refine ⟨fun id hid => ?_, fun _ => ⟨id0, hid0, by simp [hval]⟩, fun hU => ?_⟩
    · exact hle _ (List.mem_map.2 ⟨id, hid, rfl⟩) |>.trans_eq (by simp)
    · subst hU
      simp at hm

theorem runCountCalls_filled (repoIds : List CommitId) (v : Int) (n : Nat) :
    runCountCalls repoIds n ⟨Option.some v⟩
      = (List.replicate n v, ⟨Option.some v⟩, 0) := by
  induction n with
  | zero => rfl
  | succ n ih => simp [runCountCalls, MostDigitsInId.count, ih, List.replicate]

/-! ### Claim theorems -/

/-- C1: for every commit id, `num_digits_in_id(id)` equals the number of ASCII
decimal-digit characters in the canonical hexadecimal encoding of that id, and
it is deterministic and pure: the result depends only on the id's bytes. -/
theorem num_digits_in_id_correct (id : CommitId) :
    num_digits_in_id id = (id.hex.countP Char.isDigit : Int)
    ∧ ∀ id2 : CommitId, id.bytes = id2.bytes →
        num_digits_in_id id = num_digits_in_id id2 := by
  constructor
  · rw [num_digits_in_id, foldl_count_eq_filter_length, zero_add,
      List.countP_eq_length_filter]
    rw [List.filter_congr (fun c _ => isAsciiDigit_eq_isDigit c)]
  · intro id2 h
    cases id
    cases id2
    cases h
    rfl

/-- Witness for C1 at the concrete id with hex encoding `"a1b2c3"`. -/
theorem num_digits_in_id_correct_witness :
    num_digits_in_id scenarioIdA = (scenarioIdA.hex.countP Char.isDigit : Int)
    ∧ num_digits_in_id scenarioIdA = num_digits_in_id ⟨[0xa1, 0xb2, 0xc3]⟩ :=
  ⟨(num_digits_in_id_correct scenarioIdA).1,
   (num_digits_in_id_correct scenarioIdA).2 ⟨[0xa1, 0xb2, 0xc3]⟩ rfl⟩

/-- C3: for every sequence of `n ≥ 1` calls to `MostDigitsInId::count` within
one session (starting from the fresh cell installed by
`build_cache_extensions`), the compute closure runs exactly once — in
particular at most once — and every call returns the same value as the first
(the repository-wide maximum). -/
theorem most_digits_computed_once (repoIds : List CommitId) (n : Nat)
    (hn : 1 ≤ n) :
    (runCountCalls repoIds n MostDigitsInId.new).2.2 = 1
    ∧ (runCountCalls repoIds n MostDigitsInId.new).1
        = List.replicate n (MostDigitsInId.compute repoIds) := by
  obtain ⟨m, rfl⟩ : ∃ m, n = m + 1 := ⟨n - 1, by omega⟩
  simp [runCountCalls, MostDigitsInId.count, MostDigitsInId.new,
    runCountCalls_filled, List.replicate]

/-- Witness for C3: three calls over the scenario universe. -/
theorem most_digits_computed_once_witness :
    (runCountCalls scenarioUniverse 3 MostDigitsInId.new).2.2 = 1
    ∧ (runCountCalls scenarioUniverse 3 MostDigitsInId.new).1
        = List.replicate 3 (MostDigitsInId.compute scenarioUniverse) :=
  most_digits_computed_once scenarioUniverse 3 (by decide)

/-- C4: for every commit and character `c`, `num_char_in_id(commit, c)` returns
(`Ok` of) the count of occurrences of `c` in the canonical hexadecimal encoding
of the commit's id. -/
theorem num_char_in_id_correct (commit : Commit) (c : Char) :
    num_char_in_id commit c = Except.ok (commit.id.hex.count c : Int) := by
  rw [num_char_in_id, foldl_count_eq_filter_length, zero_add, List.count,
    List.countP_eq_length_filter]

/-- C6: when the cell is empty and the enumeration of the object universe
fails, the failure surfaces to the first caller that triggers the computation
(the raise of the `.unwrap()` propagates out, embedded as `Except.error`), the
failure is not cached (the cell is still empty afterwards), and a subsequent
call with a successful enumeration retries and computes the maximum. -/
theorem cache_failure_propagates (e : EvalFailure) (repoIds : List CommitId) :
    (MostDigitsInId.new.countWithEnum (Except.error e)).1 = Except.error e
    ∧ (MostDigitsInId.new.countWithEnum (Except.error e)).2.countCell = Option.none
    ∧ ((MostDigitsInId.new.countWithEnum (Except.error e)).2.countWithEnum
        (Except.ok repoIds)).1 = Except.ok (MostDigitsInId.compute repoIds) :=
  ⟨rfl, rfl, rfl⟩

/-- C10: `num_char_in_id` never returns `Err`: despite its fallible `Result`
signature, every evaluation returns `Ok`. -/
theorem num_char_in_id_never_errors (commit : Commit) (c : Char) :
    (num_char_in_id commit c).isOk = true := rfl

/-- C2: with the cache extension freshly seeded, building `has_most_digits` on
an argument-free call yields a boolean property that is true on a commit iff
`num_digits_in_id` of its id equals the repository-wide maximum
(`MostDigitsInId.compute`), which is shown to be the maximum of
`num_digits_in_id` over the universe, defaulting to `0` on an empty universe
(where the predicate is vacuously false for all of the universe's objects,
there being none). -/
theorem has_most_digits_correct (language : LanguageContext) (call : CallSite)
    (hext : language.extensions.mostDigitsInId = Option.some MostDigitsInId.new)
    (hcall : call.args = []) :
    (∀ commit : Commit,
      (hasMostDigitsBuild language call).evalBool commit
        = Option.some (Except.ok
            (num_digits_in_id commit.id == MostDigitsInId.compute language.repoIds)))
    ∧ (∀ id ∈ language.repoIds,
        num_digits_in_id id ≤ MostDigitsInId.compute language.repoIds)
    ∧ (language.repoIds ≠ [] → ∃ id ∈ language.repoIds,
        num_digits_in_id id = MostDigitsInId.compute language.repoIds)
    ∧ (language.repoIds = [] → MostDigitsInId.compute language.repoIds = 0) := by
  obtain ⟨h1, h2, h3⟩ := compute_is_max language.repoIds
  refine ⟨fun commit => ?_, h1, h2, h3⟩
  simp [hasMostDigitsBuild, expect_no_arguments, hcall,
    LanguageContext.cache_extension, hext, MostDigitsInId.count,
    MostDigitsInId.new, BuildResult.evalBool]

/-- Witness for C2 over the scenario universe at the commit with id
`"000111"`. -/
theorem has_most_digits_correct_witness :
    (hasMostDigitsBuild scenarioLanguage emptyCall).evalBool ⟨scenarioIdB⟩
      = Option.some (Except.ok
          (num_digits_in_id scenarioIdB
            == MostDigitsInId.compute scenarioLanguage.repoIds)) :=
  (has_most_digits_correct scenarioLanguage emptyCall rfl rfl).1 ⟨scenarioIdB⟩

/-- C5: building `num_char_in_id` with a string-literal argument that is empty
or longer than one character fails with the parse error
`"Expected singular character argument"` carrying the argument's span, and no
property is produced (so evaluation never occurs for that call). -/
theorem num_char_in_id_bad_literal_fails (language : LanguageContext)
    (call : CallSite) (node : ExpressionNode) (s : String)
    (hargs : call.args = [node])
    (hkind : node.kind = ExpressionKind.stringLiteral s)
    (hlen : s.toList.length ≠ 1) :
    numCharInIdBuild language call
      = BuildResult.parseError (TemplateParseError.unexpectedExpression
          "Expected singular character argument" node.span)
    ∧ ∀ commit, (numCharInIdBuild language call).evalInt commit = Option.none := by
  have hmain : numCharInIdBuild language call
      = BuildResult.parseError (TemplateParseError.unexpectedExpression
          "Expected singular character argument" node.span) := by
    obtain ⟨cname, cargs, cspan⟩ := call
    obtain ⟨nkind, nspan⟩ := node
    dsimp only at hargs hkind ⊢
    subst hargs
    subst hkind
    cases hs : s.toList with
    | nil =>
      simp only [String.toList] at hs
      simp [numCharInIdBuild, expect_exact_arguments_1,
        expect_string_literal_with, hs]
    | cons a t =>
      cases t with
      | nil => exact absurd (by rw [hs]; rfl) hlen
      | cons b t2 =>
        simp only [String.toList] at hs
        simp [numCharInIdBuild, expect_exact_arguments_1,
          expect_string_literal_with, hs]
  exact ⟨hmain, fun commit => by rw [hmain]; rfl⟩

/-- Witness for C5: the empty string literal. -/
theorem num_char_in_id_bad_literal_fails_witness :
    numCharInIdBuild scenarioLanguage
        ⟨"num_char_in_id", [⟨ExpressionKind.stringLiteral "", ⟨4, 6⟩⟩], ⟨0, 7⟩⟩
      = BuildResult.parseError (TemplateParseError.unexpectedExpression
          "Expected singular character argument" ⟨4, 6⟩)
    ∧ ∀ commit,
        (numCharInIdBuild scenarioLanguage
          ⟨"num_char_in_id", [⟨ExpressionKind.stringLiteral "", ⟨4, 6⟩⟩], ⟨0, 7⟩⟩).evalInt
          commit = Option.none :=
  num_char_in_id_bad_literal_fails scenarioLanguage
    ⟨"num_char_in_id", [⟨ExpressionKind.stringLiteral "", ⟨4, 6⟩⟩], ⟨0, 7⟩⟩
    ⟨ExpressionKind.stringLiteral "", ⟨4, 6⟩⟩ "" rfl rfl (by decide)

/-- C7: building `has_most_digits` or `num_digits_in_id` with a non-empty
argument list fails with the argument-count parse error and no property is
produced; with an empty argument list the build succeeds (for
`has_most_digits`, given that the cache extension is present, as the host
guarantees). -/
theorem no_arguments_builders_arity (language : LanguageContext)
    (call : CallSite) :
    (call.args ≠ [] →
      numDigitsInIdBuild language call
        = BuildResult.parseError (TemplateParseError.invalidArguments
            "Expected 0 arguments" call.span)
      ∧ hasMostDigitsBuild language call
        = BuildResult.parseError (TemplateParseError.invalidArguments
            "Expected 0 arguments" call.span))
    ∧ (call.args = [] →
      numDigitsInIdBuild language call
        = BuildResult.ok (WrappedProperty.integer (fun commit =>
            Except.ok (num_digits_in_id commit.id)))
      ∧ (language.extensions.mostDigitsInId.isSome = true →
        ∃ f, hasMostDigitsBuild language call
          = BuildResult.ok (WrappedProperty.boolean f))) := by
  constructor
  · intro hne
    have he : expect_no_arguments call
        = Except.error (TemplateParseError.invalidArguments
            "Expected 0 arguments" call.span) := by
      unfold expect_no_arguments
      cases h : call.args with
      | nil => exact absurd h hne
      | cons a t => rfl
    constructor
    · unfold numDigitsInIdBuild
      rw [he]
    · unfold hasMostDigitsBuild
      rw [he]
  · intro he0
    have he : expect_no_arguments call = Except.ok () := by
      unfold expect_no_arguments
      rw [he0]
    constructor
    · unfold numDigitsInIdBuild
      rw [he]
    · intro hsome
      obtain ⟨cell, hcell⟩ := Option.isSome_iff_exists.1 hsome
      refine ⟨fun commit =>
        Except.ok (num_digits_in_id commit.id
          == (cell.count language.repoIds).1), ?_⟩
      unfold hasMostDigitsBuild LanguageContext.cache_extension
      rw [he, hcell]

/-- Witness for C7: a one-argument call fails for `num_digits_in_id`; the
empty-argument call succeeds for `has_most_digits` over the wired scenario
context. -/
theorem no_arguments_builders_arity_witness :
    numDigitsInIdBuild scenarioLanguage
        ⟨"num_digits_in_id", [⟨ExpressionKind.other, ⟨1, 2⟩⟩], ⟨0, 3⟩⟩
      = BuildResult.parseError (TemplateParseError.invalidArguments
          "Expected 0 arguments" ⟨0, 3⟩)
    ∧ ∃ f, hasMostDigitsBuild scenarioLanguage emptyCall
        = BuildResult.ok (WrappedProperty.boolean f) :=
  ⟨((no_arguments_builders_arity scenarioLanguage
      ⟨"num_digits_in_id", [⟨ExpressionKind.other, ⟨1, 2⟩⟩], ⟨0, 3⟩⟩).1
      (by decide)).1,
   ((no_arguments_builders_arity scenarioLanguage emptyCall).2 rfl).2 rfl⟩

/-- C9: once `build_cache_extensions` has run for the session, the
`cache_extension::<MostDigitsInId>()` lookup inside the `has_most_digits`
builder returns `Some` — so the `.unwrap()` on it never raises, for any call. -/
theorem cache_extension_lookup_safe (ext0 : ExtensionsMap)
    (language : LanguageContext) (call : CallSite)
    (hwired : language.extensions = build_cache_extensions ext0) :
    language.cache_extension = Option.some MostDigitsInId.new
    ∧ hasMostDigitsBuild language call ≠ BuildResult.missingExtension := by
  have hc : language.cache_extension = Option.some MostDigitsInId.new := by
    rw [LanguageContext.cache_extension, hwired]
    rfl
  refine ⟨hc, ?_⟩
  unfold hasMostDigitsBuild
  cases he : expect_no_arguments call with
  | error e => exact fun h => BuildResult.noConfusion h
  | ok u =>
    rw [hc]
    exact fun h => BuildResult.noConfusion h

/-- Witness for C9 with the scenario wiring. -/
theorem cache_extension_lookup_safe_witness :
    scenarioLanguage.cache_extension = Option.some MostDigitsInId.new
    ∧ hasMostDigitsBuild scenarioLanguage emptyCall
        ≠ BuildResult.missingExtension :=
  cache_extension_lookup_safe ⟨Option.none⟩ scenarioLanguage emptyCall rfl

/-- C8 counterexample: the scenario claims `num_char_in_id` with literal `'1'`
on the id encoded `"000111"` returns 2, but the code returns 3 — the encoding
`"000111"` contains three `'1'` characters. -/
theorem scenario_char_count_counterexample :
    num_char_in_id ⟨scenarioIdB⟩ '1' = Except.ok 3 ∧ (3 : Int) ≠ 2 :=
  ⟨rfl, by decide⟩

/-- C8 (amended): for the universe with ids encoded `"a1b2c3"`, `"000111"`,
`"abcdef"`: the digit counts are 3, 6 and 0; the maximum is 6;
`has_most_digits` is true only for `"000111"`; and `num_char_in_id` with
literal `'1'` evaluated on `"000111"` returns 3. -/
theorem scenario_amended :
    num_digits_in_id scenarioIdA = 3
    ∧ num_digits_in_id scenarioIdB = 6
    ∧ num_digits_in_id scenarioIdC = 0
    ∧ MostDigitsInId.compute scenarioUniverse = 6
    ∧ (hasMostDigitsBuild scenarioLanguage emptyCall).evalBool ⟨scenarioIdA⟩
        = Option.some (Except.ok false)
    ∧ (hasMostDigitsBuild scenarioLanguage emptyCall).evalBool ⟨scenarioIdB⟩
        = Option.some (Except.ok true)
    ∧ (hasMostDigitsBuild scenarioLanguage emptyCall).evalBool ⟨scenarioIdC⟩
        = Option.some (Except.ok false)
    ∧ num_char_in_id ⟨scenarioIdB⟩ '1' = Except.ok 3 :=
  ⟨rfl, rfl, rfl, rfl, rfl, rfl, rfl, rfl⟩

end CustomCommitTemplater
